import Mathlib

/-!
Verification of the SundaySignals repository: a shallow embedding of the
trigger-token authorization gate (src/lib/utils), the three token-gated
POST route handlers (trigger-weekly, waivers/scan, refresh-week), and the
relational schema of supabase/schema.sql (check constraints, cascading
foreign keys, the odds_implied view, the pred_cache serving contract and
the model_runs ledger).
-/

/-- JSON values as produced by a successful `JSON.parse` / `req.json()`.
Numbers are modelled as exact rationals. Objects are field lists; a parsed
object has no duplicate keys. -/
inductive Json where
  | null : Json
  | bool (b : Bool) : Json
  | num (q : Rat) : Json
  | str (s : String) : Json
  | arr (elems : List Json) : Json
  | obj (fields : List (String × Json)) : Json

/-- First-match field lookup in a parsed-object field list (parsed objects
have unique keys, so first match is the match). `none` models the JS value
`undefined` for an absent property. -/
def lookupObj : List (String × Json) → String → Option Json
  | [], _ => none
  | (k, v) :: rest, key => if k = key then some v else lookupObj rest key

/-- JS property access `j[key]` on a parsed JSON value: an object yields its
field (or undefined); primitives and arrays have no such own property, so
access yields undefined (`none`). Access on `null` is not defined here —
it throws in JS, which `parseSeasonWeek` models separately. -/
def Json.getField : Json → String → Option Json
  | Json.obj fields, key => lookupObj fields key
  | _, _ => none

/-- The inbound request header map, as exposed by the Fetch `Headers`
class (names already normalized; `get` returns the value or `null`). -/
structure Headers where
  entries : List (String × String)

/-- `headers.get(name)`: the value of the header, or `none` for JS `null`
when the header is absent. -/
def Headers.get (h : Headers) (name : String) : Option String :=
  match h.entries.find? (fun p => p.fst = name) with
  | some p => some p.snd
  | none => none

/-- A response body: either plain text (`new Response('Unauthorized', ...)`)
or the JSON value whose `JSON.stringify` image is sent. -/
inductive Body where
  | text (s : String) : Body
  | json (j : Json) : Body

/-- `new Response(body, { status })`. -/
structure Response where
  status : Nat
  body : Body

/-- The runtime errors the route handlers can throw past their own code. -/
inductive JsError where
  | typeError : JsError

/-- What an invocation of a route handler observably produces: either a
`Response` or an exception escaping the handler (surfaced by the framework
as a 500, never as the handler's own 200). -/
inductive ApiResult where
  | response (status : Nat) (body : Body) : ApiResult
  | thrown (e : JsError) : ApiResult

/-- src/lib/utils `requireTriggerToken(headers)`.  `secret` is
`process.env.TRIGGER_TOKEN` (`none` = the variable is unset, JS
`undefined`).  The JS guard is `if (!token || token !== secret)`: `!token`
is true exactly when `token` is `null` (absent header) or the empty
string; otherwise `token` is a nonempty string and strict inequality
against `string | undefined` coincides with `Option String` inequality. -/
def requireTriggerToken (secret : Option String) (headers : Headers) : Option Response :=
  let token := headers.get "x-trigger-token"
  if token.getD "" = "" ∨ token ≠ secret then
    some { status := 401, body := Body.text "Unauthorized" }
  else
    none

/-- A request as a route handler consumes it: its header map and the
outcome of `await req.json()` (`Except.error` = the body is absent or is
not well-formed JSON, so the promise rejects). -/
structure Request where
  headers : Headers
  jsonBody : Except Unit Json

/-- `const { season, week } = await req.json().catch(() => ({ season:
undefined, week: undefined }))`.  A rejected parse is replaced by the
catch handler's object, which destructures to two `undefined`s.  A body
that parses to JSON `null` resolves (the catch does not fire) and
destructuring `null` throws a `TypeError`.  Any other parsed value
destructures via property access. -/
def parseSeasonWeek : Except Unit Json → Except JsError (Option Json × Option Json)
  | Except.error _ => Except.ok (none, none)
  | Except.ok Json.null => Except.error JsError.typeError
  | Except.ok j => Except.ok (j.getField "season", j.getField "week")

/-- The object literal `{ ok: true, season, week }` as `JSON.stringify`
serializes it: a key bound to `undefined` is omitted from the output. -/
def okBody (season week : Option Json) : Json :=
  Json.obj ([("ok", Json.bool true)]
    ++ (match season with | none => [] | some v => [("season", v)])
    ++ (match week with | none => [] | some v => [("week", v)]))

namespace TriggerWeekly

/-- POST /api/trigger-weekly (src/app/api/trigger-weekly/route.ts). -/
def POST (secret : Option String) (req : Request) : ApiResult :=
  match requireTriggerToken secret req.headers with
  | some r => ApiResult.response r.status r.body
  | none =>
    match parseSeasonWeek req.jsonBody with
    | Except.error e => ApiResult.thrown e
    | Except.ok (season, week) => ApiResult.response 200 (Body.json (okBody season week))

end TriggerWeekly

namespace WaiversScan

/-- POST /api/waivers/scan (src/app/api/waivers/scan/route.ts); its code is
line-for-line the same shape as trigger-weekly. -/
def POST (secret : Option String) (req : Request) : ApiResult :=
  match requireTriggerToken secret req.headers with
  | some r => ApiResult.response r.status r.body
  | none =>
    match parseSeasonWeek req.jsonBody with
    | Except.error e => ApiResult.thrown e
    | Except.ok (season, week) => ApiResult.response 200 (Body.json (okBody season week))

end WaiversScan

namespace RefreshWeek

/-- POST /api/refresh-week (src/app/api/refresh-week/route.ts): gate, then
a constant `{ ok: true }` acknowledgment; the body is never read. -/
def POST (secret : Option String) (req : Request) : ApiResult :=
  match requireTriggerToken secret req.headers with
  | some r => ApiResult.response r.status r.body
  | none => ApiResult.response 200 (Body.json (Json.obj [("ok", Json.bool true)]))

end RefreshWeek

/-- Helper: whenever the `x-trigger-token` header is absent or its value
differs from the configured secret, `requireTriggerToken` rejects with the
401 response. -/
theorem gate_rejects (secret : Option String) (hs : Headers)
    (h : hs.get "x-trigger-token" = none ∨ hs.get "x-trigger-token" ≠ secret) :
    requireTriggerToken secret hs
      = some { status := 401, body := Body.text "Unauthorized" } := by
  have hcond : (hs.get "x-trigger-token").getD "" = ""
      ∨ hs.get "x-trigger-token" ≠ secret := by
    rcases h with h | h
    · exact Or.inl (by simp [h])
    · exact Or.inr h
  simp only [requireTriggerToken]
  rw [if_pos hcond]

/-- Helper: a nonempty token equal to the configured secret passes the gate. -/
theorem gate_passes (t : String) (hs : Headers) (ht : t ≠ "")
    (h : hs.get "x-trigger-token" = some t) :
    requireTriggerToken (some t) hs = none := by
  have hcond : ¬((hs.get "x-trigger-token").getD "" = ""
      ∨ hs.get "x-trigger-token" ≠ some t) := by
    simp [h, ht]
  simp only [requireTriggerToken]
  rw [if_neg hcond]

/-- C1: for every request whose header map is missing `x-trigger-token` or
carries a value different from the configured secret, each of the three
trigger endpoints returns the 401 Unauthorized response; the result is the
constant 401 whatever the request body holds, so no body processing or
side effect occurs. -/
theorem trigger_token_gate_returns_401 (secret : Option String) (req : Request)
    (h : req.headers.get "x-trigger-token" = none
      ∨ req.headers.get "x-trigger-token" ≠ secret) :
    TriggerWeekly.POST secret req = ApiResult.response 401 (Body.text "Unauthorized")
    ∧ WaiversScan.POST secret req = ApiResult.response 401 (Body.text "Unauthorized")
    ∧ RefreshWeek.POST secret req = ApiResult.response 401 (Body.text "Unauthorized") := by
  refine ⟨?_, ?_, ?_⟩ <;>
    simp [TriggerWeekly.POST, WaiversScan.POST, RefreshWeek.POST,
      gate_rejects secret req.headers h]

/-- Witness for C1 at a concrete request carrying a wrong token. -/
theorem trigger_token_gate_returns_401_witness :
    TriggerWeekly.POST (some "s")
        { headers := { entries := [("x-trigger-token", "bad")] },
          jsonBody := Except.error () }
      = ApiResult.response 401 (Body.text "Unauthorized")
    ∧ WaiversScan.POST (some "s")
        { headers := { entries := [("x-trigger-token", "bad")] },
          jsonBody := Except.error () }
      = ApiResult.response 401 (Body.text "Unauthorized")
    ∧ RefreshWeek.POST (some "s")
        { headers := { entries := [("x-trigger-token", "bad")] },
          jsonBody := Except.error () }
      = ApiResult.response 401 (Body.text "Unauthorized") :=
  trigger_token_gate_returns_401 (some "s")
    { headers := { entries := [("x-trigger-token", "bad")] },
      jsonBody := Except.error () }
    (Or.inr (by decide))

/-- C2: when the configured secret is unset or the empty string,
`requireTriggerToken` never authorizes: every header map, including one
presenting an empty token, receives the 401 response. -/
theorem empty_or_unset_secret_never_authorizes (secret : Option String) (hs : Headers)
    (h : secret = none ∨ secret = some "") :
    requireTriggerToken secret hs
      = some { status := 401, body := Body.text "Unauthorized" } := by
  have hcond : (hs.get "x-trigger-token").getD "" = ""
      ∨ hs.get "x-trigger-token" ≠ secret := by
    rcases htok : hs.get "x-trigger-token" with _ | t
    · exact Or.inl rfl
    · by_cases ht : t = ""
      · exact Or.inl (by simp [ht])
      · rcases h with h | h <;> subst h <;> exact Or.inr (by simp [ht])
  simp only [requireTriggerToken]
  rw [if_pos hcond]

/-- Witness for C2: an empty secret rejects even a request presenting an
empty token. -/
theorem empty_or_unset_secret_never_authorizes_witness :
    requireTriggerToken (some "") { entries := [("x-trigger-token", "")] }
      = some { status := 401, body := Body.text "Unauthorized" } :=
  empty_or_unset_secret_never_authorizes (some "")
    { entries := [("x-trigger-token", "")] } (Or.inr rfl)

/-- C3: with a correct (necessarily nonempty) token and an absent or
malformed JSON body, trigger-weekly and waivers/scan respond 200 with a
body from which both the season and the week keys are absent; the parse
failure is never surfaced as an error. -/
theorem malformed_body_yields_200_absent_fields (t : String) (hs : Headers)
    (ht : t ≠ "") (htok : hs.get "x-trigger-token" = some t) :
    TriggerWeekly.POST (some t) { headers := hs, jsonBody := Except.error () }
      = ApiResult.response 200 (Body.json (Json.obj [("ok", Json.bool true)]))
    ∧ WaiversScan.POST (some t) { headers := hs, jsonBody := Except.error () }
      = ApiResult.response 200 (Body.json (Json.obj [("ok", Json.bool true)])) := by
  constructor <;>
    simp [TriggerWeekly.POST, WaiversScan.POST, gate_passes t hs ht htok,
      parseSeasonWeek, okBody]

/-- Witness for C3 at a concrete authorized request with a malformed body. -/
theorem malformed_body_yields_200_absent_fields_witness :
    TriggerWeekly.POST (some "s")
        { headers := { entries := [("x-trigger-token", "s")] },
          jsonBody := Except.error () }
      = ApiResult.response 200 (Body.json (Json.obj [("ok", Json.bool true)]))
    ∧ WaiversScan.POST (some "s")
        { headers := { entries := [("x-trigger-token", "s")] },
          jsonBody := Except.error () }
      = ApiResult.response 200 (Body.json (Json.obj [("ok", Json.bool true)])) :=
  malformed_body_yields_200_absent_fields "s"
    { entries := [("x-trigger-token", "s")] } (by decide) (by decide)

/-- C4: with a correct token and the body `{"season": 2025, "week": 3}`,
trigger-weekly responds 200 with `{ok: true, season: 2025, week: 3}`. -/
theorem season_week_echoed (t : String) (hs : Headers)
    (ht : t ≠ "") (htok : hs.get "x-trigger-token" = some t) :
    TriggerWeekly.POST (some t)
        { headers := hs,
          jsonBody := Except.ok (Json.obj
            [("season", Json.num 2025), ("week", Json.num 3)]) }
      = ApiResult.response 200 (Body.json (Json.obj
          [("ok", Json.bool true), ("season", Json.num 2025), ("week", Json.num 3)])) := by
  simp [TriggerWeekly.POST, gate_passes t hs ht htok, parseSeasonWeek,
    Json.getField, lookupObj, okBody]

/-- Witness for C4 at a concrete authorized request. -/
theorem season_week_echoed_witness :
    TriggerWeekly.POST (some "s")
        { headers := { entries := [("x-trigger-token", "s")] },
          jsonBody := Except.ok (Json.obj
            [("season", Json.num 2025), ("week", Json.num 3)]) }
      = ApiResult.response 200 (Body.json (Json.obj
          [("ok", Json.bool true), ("season", Json.num 2025), ("week", Json.num 3)])) :=
  season_week_echoed "s" { entries := [("x-trigger-token", "s")] }
    (by decide) (by decide)

/-- A row of the table public.odds (supabase/schema.sql). `numeric`
columns are exact rationals, `timestamptz` an integer timestamp. -/
structure OddsRow where
  season : Int
  week : Int
  game_id : String
  team : String
  opp : String
  spread : Option Rat
  moneyline : Option Int
  total : Option Rat
  updated_at : Int
deriving DecidableEq

/-- The CASE expression of the view public.odds_implied:
`when moneyline is null then null / when moneyline > 0 then 100.0 /
(moneyline + 100.0) / else (-moneyline) / ((-moneyline) + 100.0)`,
with numeric arithmetic taken as exact rational arithmetic. -/
def impliedWinProbCase (moneyline : Option Int) : Option Rat :=
  match moneyline with
  | none => none
  | some m =>
    if m > 0 then some (100 / ((m : Rat) + 100))
    else some (((-m : Int) : Rat) / (((-m : Int) : Rat) + 100))

/-- The view public.odds_implied: every odds row, extended with its
implied_win_prob; a read-only projection recomputed from the rows. -/
def oddsImplied (odds : List OddsRow) : List (OddsRow × Option Rat) :=
  odds.map (fun r => (r, impliedWinProbCase r.moneyline))

/-- C5: for every row of the odds_implied view, the implied win
probability follows the spec formula — null moneyline gives null, a
positive moneyline m gives 100/(m+100), a nonpositive one gives
(−m)/((−m)+100) — and in particular +150 yields 0.40 and −150 yields
0.60, as exact rationals. -/
theorem odds_implied_formula (odds : List OddsRow) (r : OddsRow) (p : Option Rat)
    (h : (r, p) ∈ oddsImplied odds) :
    (r.moneyline = none → p = none)
    ∧ (∀ m : Int, r.moneyline = some m → m > 0 → p = some (100 / ((m : Rat) + 100)))
    ∧ (∀ m : Int, r.moneyline = some m → ¬ m > 0 →
        p = some (((-m : Int) : Rat) / (((-m : Int) : Rat) + 100)))
    ∧ (r.moneyline = some 150 → p = some (2/5))
    ∧ (r.moneyline = some (-150) → p = some (3/5)) := by
  have hp : p = impliedWinProbCase r.moneyline := by
    rcases List.mem_map.mp h with ⟨a, _, ha⟩
    cases ha
    rfl
  subst hp
  refine ⟨?_, ?_, ?_, ?_, ?_⟩
  · intro hm; rw [hm]; rfl
  · intro m hm hpos; rw [hm]; simp [impliedWinProbCase, hpos]
  · intro m hm hpos; rw [hm]; simp [impliedWinProbCase, hpos]
  · intro hm; rw [hm]; norm_num [impliedWinProbCase]
  · intro hm; rw [hm]; norm_num [impliedWinProbCase]

/-- A concrete odds row with moneyline +150. -/
def oddsRow150 : OddsRow :=
  { season := 2025, week := 3, game_id := "g1", team := "NYJ", opp := "BUF",
    spread := none, moneyline := some 150, total := none, updated_at := 0 }

/-- Witness for C5 at the concrete view over one row with moneyline +150,
whose implied probability is 2/5 = 0.40. -/
theorem odds_implied_formula_witness :
    (oddsRow150.moneyline = none → (some (2/5 : Rat)) = none)
    ∧ (∀ m : Int, oddsRow150.moneyline = some m → m > 0 →
        (some (2/5 : Rat)) = some (100 / ((m : Rat) + 100)))
    ∧ (∀ m : Int, oddsRow150.moneyline = some m → ¬ m > 0 →
        (some (2/5 : Rat)) = some (((-m : Int) : Rat) / (((-m : Int) : Rat) + 100)))
    ∧ (oddsRow150.moneyline = some 150 → (some (2/5 : Rat)) = some (2/5))
    ∧ (oddsRow150.moneyline = some (-150) → (some (2/5 : Rat)) = some (3/5)) :=
  odds_implied_formula [oddsRow150] oddsRow150 (some (2/5))
    (by simp [oddsImplied, oddsRow150, impliedWinProbCase]; norm_num)

/-- Helper: destructuring any parsed JSON value other than null succeeds
and yields the values of its season and week properties. -/
theorem parseSeasonWeek_ok (j : Json) (hj : j ≠ Json.null) :
    parseSeasonWeek (Except.ok j)
      = Except.ok (j.getField "season", j.getField "week") := by
  cases j <;> simp_all [parseSeasonWeek, Json.getField]

/-- C10 counterexample: with a correct token and a body that parses as the
JSON value null, trigger-weekly and waivers/scan do not answer 200 at all:
`const { season, week } = null` throws a TypeError past the handler (the
`.catch` guards only the parse), so the claimed echo response is not
produced. -/
theorem null_body_counterexample :
    TriggerWeekly.POST (some "s")
        { headers := { entries := [("x-trigger-token", "s")] },
          jsonBody := Except.ok Json.null }
      = ApiResult.thrown JsError.typeError
    ∧ WaiversScan.POST (some "s")
        { headers := { entries := [("x-trigger-token", "s")] },
          jsonBody := Except.ok Json.null }
      = ApiResult.thrown JsError.typeError
    ∧ ApiResult.thrown JsError.typeError
      ≠ ApiResult.response 200 (Body.json (okBody
          (Json.getField Json.null "season") (Json.getField Json.null "week"))) := by
  refine ⟨rfl, rfl, ?_⟩
  simp

/-- C10 amended: with a correct token and a body parsing to any JSON value
other than null, trigger-weekly and waivers/scan perform no validation of
season or week: whatever values sit under those keys — any JSON type, out
of range or not — are echoed verbatim in the 200 response (absent keys are
omitted); a body parsing to null instead raises a TypeError. -/
theorem season_week_echoed_verbatim (t : String) (hs : Headers) (j : Json)
    (ht : t ≠ "") (htok : hs.get "x-trigger-token" = some t) (hj : j ≠ Json.null) :
    TriggerWeekly.POST (some t) { headers := hs, jsonBody := Except.ok j }
      = ApiResult.response 200 (Body.json (okBody
          (j.getField "season") (j.getField "week")))
    ∧ WaiversScan.POST (some t) { headers := hs, jsonBody := Except.ok j }
      = ApiResult.response 200 (Body.json (okBody
          (j.getField "season") (j.getField "week"))) := by
  have hp := parseSeasonWeek_ok j hj
  constructor <;>
    simp [TriggerWeekly.POST, WaiversScan.POST, gate_passes t hs ht htok, hp]

/-- A body carrying a non-integer week far outside [1, 23] and a string
season. -/
def oddBody : Json :=
  Json.obj [("season", Json.str "notAYear"), ("week", Json.num (199/2))]

/-- Witness for the amended C10: the unvalidated season/week values of
`oddBody` are echoed verbatim by both endpoints. -/
theorem season_week_echoed_verbatim_witness :
    TriggerWeekly.POST (some "s")
        { headers := { entries := [("x-trigger-token", "s")] },
          jsonBody := Except.ok oddBody }
      = ApiResult.response 200 (Body.json (okBody
          (oddBody.getField "season") (oddBody.getField "week")))
    ∧ WaiversScan.POST (some "s")
        { headers := { entries := [("x-trigger-token", "s")] },
          jsonBody := Except.ok oddBody }
      = ApiResult.response 200 (Body.json (okBody
          (oddBody.getField "season") (oddBody.getField "week"))) :=
  season_week_echoed_verbatim "s" { entries := [("x-trigger-token", "s")] }
    oddBody (by decide) (by decide) (by simp [oddBody])

/-- A row of the table public.pred_cache (supabase/schema.sql), keyed by
(pk, sk), carrying the point and interval predictions and the expiry. -/
structure PredCacheEntry where
  pk : String
  sk : String
  p50 : Rat
  lo : Rat
  hi : Rat
  valid_until : Int
deriving DecidableEq

/-- Modelled from the spec: the repository defines the pred_cache table
but ships no serving read-path code; spec section 4.3 fixes the contract —
a lookup by (pk, sk) must check valid_until against the current time,
treat entries at or past expiry as a cache miss surfaced as absence, and
never recompute synchronously (absence is the only miss outcome). -/
def getFreshPrediction (store : List PredCacheEntry) (pk sk : String)
    (now : Int) : Option PredCacheEntry :=
  match store.find? (fun e => e.pk = pk && e.sk = sk) with
  | none => none
  | some e => if e.valid_until ≤ now then none else some e

/-- C6: an entry whose valid_until is at or before the current time is
never returned by the fresh-prediction read, even though it is still
physically present in the store; the miss is absence (`none` is the only
other outcome of the read), never a recomputation. -/
theorem stale_entry_never_returned (store : List PredCacheEntry)
    (pk sk : String) (now : Int) (e : PredCacheEntry)
    (_he : e ∈ store) (hstale : e.valid_until ≤ now) :
    getFreshPrediction store pk sk now ≠ some e := by
  intro hret
  unfold getFreshPrediction at hret
  split at hret
  · exact Option.noConfusion hret
  · split at hret
    · exact Option.noConfusion hret
    · cases Option.some.inj hret
      rename_i hv
      exact hv hstale

/-- An expired cache entry. -/
def staleEntry : PredCacheEntry :=
  { pk := "season#2025#week#3", sk := "player#p1",
    p50 := 12, lo := 8, hi := 17, valid_until := 5 }

/-- Witness for C6: at time 10 the expired `staleEntry`, though present,
is not returned. -/
theorem stale_entry_never_returned_witness :
    getFreshPrediction [staleEntry] "season#2025#week#3" "player#p1" 10
      ≠ some staleEntry :=
  stale_entry_never_returned [staleEntry] "season#2025#week#3" "player#p1" 10
    staleEntry (by decide) (by decide)

/-- Run status of public.model_runs: started/success/failed. -/
inductive RunStatus where
  | started : RunStatus
  | success : RunStatus
  | failed : RunStatus
deriving DecidableEq

/-- A row of the table public.model_runs (supabase/schema.sql). -/
structure ModelRun where
  run_id : Nat
  season : Option Int
  week : Option Int
  stage : String
  status : RunStatus
  started_at : Int
  ended_at : Option Int
deriving DecidableEq

/-- Opening a run: an insert into public.model_runs with the schema
defaults, status 'started' and ended_at null. -/
def openRun (runs : List ModelRun) (id : Nat) (season week : Option Int)
    (stage : String) (t : Int) : List ModelRun :=
  { run_id := id, season := season, week := week, stage := stage,
    status := RunStatus.started, started_at := t, ended_at := none } :: runs

/-- Modelled from the spec: the repository contains no pipeline code that
writes to model_runs; spec section 4.4 fixes the contract — a run is
closed by setting its status to a terminal value together with ended_at in
one atomic update. -/
def closeRun (runs : List ModelRun) (id : Nat) (st : RunStatus)
    (t : Int) : List ModelRun :=
  runs.map fun r =>
    if r.run_id = id then { r with status := st, ended_at := some t } else r

/-- The states of the model_runs store reachable from empty by opening
runs and closing runs with a terminal (non-started) status, per the
transition contract status: started → {success, failed}. -/
inductive RunsReachable : List ModelRun → Prop where
  | empty : RunsReachable []
  | openStep (runs : List ModelRun) (id : Nat) (season week : Option Int)
      (stage : String) (t : Int) : RunsReachable runs →
      RunsReachable (openRun runs id season week stage t)
  | closeStep (runs : List ModelRun) (id : Nat) (st : RunStatus) (t : Int) :
      RunsReachable runs → st ≠ RunStatus.started →
      RunsReachable (closeRun runs id st t)

/-- C7: in every reachable state of the model_runs store, no row has
status 'started' together with a non-null ended_at; ended_at is set only
by the terminal close transition. -/
theorem started_run_has_no_ended_at (runs : List ModelRun)
    (h : RunsReachable runs) :
    ∀ r ∈ runs, r.status = RunStatus.started → r.ended_at = none := by
  induction h with
  | empty =>
    intro r hr
    cases hr
  | openStep runs id season week stage t h ih =>
    intro r hr hst
    rcases List.mem_cons.mp hr with hr | hr
    · subst hr
      rfl
    · exact ih r hr hst
  | closeStep runs id st t h hterm ih =>
    intro r hr hst
    rcases List.mem_map.mp hr with ⟨a, ha, hae⟩
    by_cases hid : a.run_id = id
    · rw [if_pos hid] at hae
      subst hae
      exact absurd hst hterm
    · rw [if_neg hid] at hae
      subst hae
      exact ih a ha hst

/-- Witness for C7: a freshly opened run is started and has null ended_at
in a concretely reachable store. -/
theorem started_run_has_no_ended_at_witness :
    ({ run_id := 1, season := none, week := none, stage := "ingest",
       status := RunStatus.started, started_at := 0, ended_at := none }
      : ModelRun).ended_at = none :=
  started_run_has_no_ended_at (openRun [] 1 none none "ingest" 0)
    (RunsReachable.openStep [] 1 none none "ingest" 0 RunsReachable.empty)
    { run_id := 1, season := none, week := none, stage := "ingest",
      status := RunStatus.started, started_at := 0, ended_at := none }
    (by decide) (by decide)

/-- SQL `check (week between 1 and 23)` shared by schedule,
defense_vs_pos, odds, rosters and waiver_suggestions. -/
def weekBetween (w : Int) : Bool := 1 ≤ w && w ≤ 23

/-- An SQL insert into a table with a row-level check constraint: the row
is stored if it passes the constraint and the statement is rejected
otherwise. -/
def insertRow {α : Type} (rowCheck : α → Bool) (t : List α) (r : α) :
    Option (List α) :=
  if rowCheck r then some (r :: t) else none

/-- An SQL update on a table with a row-level check constraint: the rows
matched by `p` are rewritten by `f`; the statement is rejected if any
resulting row violates the constraint. -/
def updateRows {α : Type} (rowCheck : α → Bool) (t : List α)
    (p : α → Bool) (f : α → α) : Option (List α) :=
  let t2 := t.map fun r => if p r then f r else r
  if t2.all rowCheck then some t2 else none

/-- An SQL delete of the rows matched by `p`. -/
def deleteRows {α : Type} (t : List α) (p : α → Bool) : List α :=
  t.filter fun r => !p r

/-- The table states reachable from empty through checked inserts, checked
updates and deletes. -/
inductive TableReachable {α : Type} (rowCheck : α → Bool) : List α → Prop where
  | empty : TableReachable rowCheck []
  | insertStep (t t2 : List α) (r : α) : TableReachable rowCheck t →
      insertRow rowCheck t r = some t2 → TableReachable rowCheck t2
  | updateStep (t t2 : List α) (p : α → Bool) (f : α → α) :
      TableReachable rowCheck t → updateRows rowCheck t p f = some t2 →
      TableReachable rowCheck t2
  | deleteStep (t : List α) (p : α → Bool) : TableReachable rowCheck t →
      TableReachable rowCheck (deleteRows t p)

/-- Helper: every row of a reachable table state passes the table's check
constraint. -/
theorem tableReachable_check {α : Type} (rowCheck : α → Bool)
    (t : List α) (ht : TableReachable rowCheck t) :
    ∀ r ∈ t, rowCheck r = true := by
  induction ht with
  | empty =>
    intro r hr
    cases hr
  | insertStep t t2 r h he ih =>
    unfold insertRow at he
    split at he
    · cases Option.some.inj he
      intro x hx
      rcases List.mem_cons.mp hx with hx | hx
      · subst hx
        assumption
      · exact ih x hx
    · exact Option.noConfusion he
  | updateStep t t2 p f h he ih =>
    unfold updateRows at he
    simp only [] at he
    split at he
    · cases Option.some.inj he
      rename_i hall
      exact fun x hx => List.all_eq_true.mp hall x hx
    · exact Option.noConfusion he
  | deleteStep t p h ih =>
    intro x hx
    exact ih x (List.mem_of_mem_filter hx)

/-- Helper: an insert of a row whose week is outside [1, 23] into a table
whose check constraint is `week between 1 and 23` is rejected. -/
theorem insert_reject_of_week {α : Type} (weekOf : α → Int)
    (t : List α) (r : α) (h : ¬(1 ≤ weekOf r ∧ weekOf r ≤ 23)) :
    insertRow (fun x => weekBetween (weekOf x)) t r = none := by
  unfold insertRow
  rw [if_neg]
  simpa [weekBetween] using h

/-- Helper: every row of a reachable state of a table whose check
constraint is `week between 1 and 23` has its week in [1, 23]. -/
theorem reachable_week_bounded {α : Type} (weekOf : α → Int)
    (t : List α) (ht : TableReachable (fun x => weekBetween (weekOf x)) t) :
    ∀ r ∈ t, 1 ≤ weekOf r ∧ weekOf r ≤ 23 := by
  intro r hr
  have hc := tableReachable_check (fun x => weekBetween (weekOf x)) t ht r hr
  simpa [weekBetween] using hc

/-- A row of the table public.schedule (supabase/schema.sql). -/
structure ScheduleRow where
  season : Int
  week : Int
  team : String
  opp : String
  home : Bool
deriving DecidableEq

/-- A row of the table public.defense_vs_pos (supabase/schema.sql). -/
structure DefenseVsPosRow where
  season : Int
  week : Int
  team : String
  position : String
  dvp : Rat
deriving DecidableEq

/-- A row of the table public.rosters (supabase/schema.sql). -/
structure RosterRow where
  league_id : String
  user_id : String
  player_id : String
  slot : String
  season : Int
  week : Int
deriving DecidableEq

/-- A row of the table public.waiver_suggestions (supabase/schema.sql). -/
structure WaiverSuggestionRow where
  league_id : String
  season : Int
  week : Int
  player_id : String
  evor : Rat
  reason : Option String
  created_at : Int
deriving DecidableEq

/-- The check constraint of public.schedule. -/
def scheduleCheck (r : ScheduleRow) : Bool := weekBetween r.week

/-- The check constraint of public.defense_vs_pos. -/
def defenseVsPosCheck (r : DefenseVsPosRow) : Bool := weekBetween r.week

/-- The check constraint of public.odds. -/
def oddsCheck (r : OddsRow) : Bool := weekBetween r.week

/-- The check constraint of public.rosters. -/
def rostersCheck (r : RosterRow) : Bool := weekBetween r.week

/-- The check constraint of public.waiver_suggestions. -/
def waiverSuggestionsCheck (r : WaiverSuggestionRow) : Bool := weekBetween r.week

/-- C8: for each of schedule, defense_vs_pos, odds, rosters and
waiver_suggestions, an insert of a row with week outside [1, 23] is
rejected, and every row persisted in any state reachable through checked
inserts, checked updates and deletes has week in [1, 23]. -/
theorem week_range_enforced :
    (∀ (t : List ScheduleRow) (r : ScheduleRow),
      ¬(1 ≤ r.week ∧ r.week ≤ 23) → insertRow scheduleCheck t r = none)
    ∧ (∀ t : List ScheduleRow, TableReachable scheduleCheck t →
      ∀ r ∈ t, 1 ≤ r.week ∧ r.week ≤ 23)
    ∧ (∀ (t : List DefenseVsPosRow) (r : DefenseVsPosRow),
      ¬(1 ≤ r.week ∧ r.week ≤ 23) → insertRow defenseVsPosCheck t r = none)
    ∧ (∀ t : List DefenseVsPosRow, TableReachable defenseVsPosCheck t →
      ∀ r ∈ t, 1 ≤ r.week ∧ r.week ≤ 23)
    ∧ (∀ (t : List OddsRow) (r : OddsRow),
      ¬(1 ≤ r.week ∧ r.week ≤ 23) → insertRow oddsCheck t r = none)
    ∧ (∀ t : List OddsRow, TableReachable oddsCheck t →
      ∀ r ∈ t, 1 ≤ r.week ∧ r.week ≤ 23)
    ∧ (∀ (t : List RosterRow) (r : RosterRow),
      ¬(1 ≤ r.week ∧ r.week ≤ 23) → insertRow rostersCheck t r = none)
    ∧ (∀ t : List RosterRow, TableReachable rostersCheck t →
      ∀ r ∈ t, 1 ≤ r.week ∧ r.week ≤ 23)
    ∧ (∀ (t : List WaiverSuggestionRow) (r : WaiverSuggestionRow),
      ¬(1 ≤ r.week ∧ r.week ≤ 23) → insertRow waiverSuggestionsCheck t r = none)
    ∧ (∀ t : List WaiverSuggestionRow, TableReachable waiverSuggestionsCheck t →
      ∀ r ∈ t, 1 ≤ r.week ∧ r.week ≤ 23) :=
  ⟨fun t r h => insert_reject_of_week ScheduleRow.week t r h,
   fun t ht => reachable_week_bounded ScheduleRow.week t ht,
   fun t r h => insert_reject_of_week DefenseVsPosRow.week t r h,
   fun t ht => reachable_week_bounded DefenseVsPosRow.week t ht,
   fun t r h => insert_reject_of_week OddsRow.week t r h,
   fun t ht => reachable_week_bounded OddsRow.week t ht,
   fun t r h => insert_reject_of_week RosterRow.week t r h,
   fun t ht => reachable_week_bounded RosterRow.week t ht,
   fun t r h => insert_reject_of_week WaiverSuggestionRow.week t r h,
   fun t ht => reachable_week_bounded WaiverSuggestionRow.week t ht⟩

/-- Witness for C8: inserting a schedule row with week 24 is rejected. -/
theorem week_range_enforced_witness :
    insertRow scheduleCheck []
      { season := 2025, week := 24, team := "NYJ", opp := "BUF", home := true }
      = none :=
  week_range_enforced.1 []
    { season := 2025, week := 24, team := "NYJ", opp := "BUF", home := true }
    (by decide)

/-- A row of the table public.players (supabase/schema.sql). -/
structure PlayerRow where
  player_id : String
  position : String
  team : Option String
  name : String
deriving DecidableEq

/-- A row of the table public.news (supabase/schema.sql). -/
structure NewsRow where
  player_id : String
  ts : Int
  headline : String
deriving DecidableEq

/-- The stores holding players and the three tables whose player_id
references public.players(player_id) with `on delete cascade`. -/
structure Db where
  players : List PlayerRow
  news : List NewsRow
  rosters : List RosterRow
  waiver_suggestions : List WaiverSuggestionRow

/-- Deleting a player: the row leaves public.players, and the
`on delete cascade` clauses of news, rosters and waiver_suggestions remove
exactly the rows whose player_id references it. -/
def deletePlayer (db : Db) (pid : String) : Db :=
  { players := db.players.filter fun r => !(r.player_id = pid),
    news := db.news.filter fun r => !(r.player_id = pid),
    rosters := db.rosters.filter fun r => !(r.player_id = pid),
    waiver_suggestions :=
      db.waiver_suggestions.filter fun r => !(r.player_id = pid) }

/-- C9: deleting a player removes every news, rosters and
waiver_suggestions row referencing its player_id, and every row
referencing a different player survives unchanged. -/
theorem player_delete_cascades (db : Db) (pid : String) :
    (∀ n ∈ (deletePlayer db pid).news, n.player_id ≠ pid)
    ∧ (∀ n : NewsRow, n ∈ db.news → n.player_id ≠ pid →
        n ∈ (deletePlayer db pid).news)
    ∧ (∀ r ∈ (deletePlayer db pid).rosters, r.player_id ≠ pid)
    ∧ (∀ r : RosterRow, r ∈ db.rosters → r.player_id ≠ pid →
        r ∈ (deletePlayer db pid).rosters)
    ∧ (∀ w ∈ (deletePlayer db pid).waiver_suggestions, w.player_id ≠ pid)
    ∧ (∀ w : WaiverSuggestionRow, w ∈ db.waiver_suggestions →
        w.player_id ≠ pid → w ∈ (deletePlayer db pid).waiver_suggestions) := by
  refine ⟨?_, ?_, ?_, ?_, ?_, ?_⟩ <;> intro x hx <;>
    simp [deletePlayer, List.mem_filter] at hx ⊢ <;> tauto

/-- A news row for a player other than the one deleted. -/
def newsOther : NewsRow := { player_id := "p2", ts := 7, headline := "fit" }

/-- Witness for C9: deleting player p1 keeps the news row of player p2. -/
theorem player_delete_cascades_witness :
    newsOther ∈ (deletePlayer
      { players := [{ player_id := "p1", position := "QB",
                      team := some "NYJ", name := "A" },
                    { player_id := "p2", position := "RB",
                      team := none, name := "B" }],
        news := [{ player_id := "p1", ts := 3, headline := "hurt" }, newsOther],
        rosters := [],
        waiver_suggestions := [] } "p1").news :=
  (player_delete_cascades
    { players := [{ player_id := "p1", position := "QB",
                    team := some "NYJ", name := "A" },
                  { player_id := "p2", position := "RB",
                    team := none, name := "B" }],
      news := [{ player_id := "p1", ts := 3, headline := "hurt" }, newsOther],
      rosters := [],
      waiver_suggestions := [] } "p1").2.1 newsOther (by decide) (by decide)
